import Mathlib

/-!
Verification development for a retrieval-augmented question-answering service.

The model below is a shallow embedding of the core service logic:
document ingestion with a dedup ledger (`processIfNew`), chunk page
attribution (`pageNumberMeta`), the per-request answer pipeline
(`getAnswer`) with its consistency cache, retrieval-result page-number
collection (`collectPageNumbers`), conversational history construction
(`buildHistory`), and the failure-signature classifier (`isErrorResponse`).

JavaScript strings are modelled as Lean `String`s, with the JS string
operations re-implemented over the underlying character list so that they
evaluate inside the kernel.  Database collections are modelled as lists in
insertion order (a `findOne` is `List.find?`, a `save` appends).  The
external generation model, the embedding model and the vector index are
black boxes per the scope of the design, so retrieval results and the
post-processed generated answer enter the pipeline as oracle parameters.
JS floating-point arithmetic in the page estimator is modelled by exact
rational arithmetic.
-/

namespace RagService

/-- Model of one persisted chat document (the `Chat` schema): sessionId,
messageId, question, answer, pageNumbers, success flag and timestamp. -/
structure Turn where
  sessionId : String
  messageId : String
  question : String
  answer : String
  pageNumbers : List Int
  success : Bool
  timestamp : Nat
deriving DecidableEq

/-- Model of one vector-search result: its text (`pageContent`) and its
`metadata.pageNumber`. -/
structure SearchResult where
  pageContent : String
  pageNumber : Int
deriving DecidableEq

/-- Character-level trim: drop whitespace from both ends of a list. -/
def trimChars (l : List Char) : List Char :=
  ((l.dropWhile Char.isWhitespace).reverse.dropWhile Char.isWhitespace).reverse

/-- Model of JS `String.prototype.trim()`. -/
def jsTrim (s : String) : String := ⟨trimChars s.data⟩

/-- Model of JS `String.prototype.toLowerCase()`. -/
def jsToLower (s : String) : String := ⟨s.data.map Char.toLower⟩

/-- Question normalisation used by the consistency cache and by the
cache-miss persistence path: `question.trim().toLowerCase()`. -/
def normalizeQuestion (q : String) : String := jsToLower (jsTrim q)

/-- Check whether `p` occurs at the head of `l`. -/
def isLeadingSeq : List Char → List Char → Bool
  | [], _ => true
  | _ :: _, [] => false
  | a :: as, b :: bs => a == b && isLeadingSeq as bs

/-- Check whether `p` occurs contiguously anywhere inside `l`
(model of JS `String.prototype.includes`). -/
def containsSeq (p : List Char) : List Char → Bool
  | [] => isLeadingSeq p []
  | c :: rest => isLeadingSeq p (c :: rest) || containsSeq p rest

/-- Model of `answer.toLowerCase().includes(pattern.toLowerCase())`. -/
def containsIgnoringCase (answer pattern : String) : Bool :=
  containsSeq (jsToLower pattern).data (jsToLower answer).data

/-- The fixed failure-signature phrases of `isErrorResponse`. -/
def errorPatterns : List String :=
  ["## System Error",
   "## Error",
   "encountered an error",
   "something went wrong",
   "System is initializing",
   "Information Not Available"]

/-- Model of `isErrorResponse`: the answer text case-insensitively contains
one of the fixed failure-signature phrases. -/
def isErrorResponse (answer : String) : Bool :=
  errorPatterns.any (fun pattern => containsIgnoringCase answer pattern)

/-- The fixed answer produced when the retrieved context is empty. -/
def unavailableAnswer : String :=
  "## Information Not Available\n\nI don\x27t have relevant information in the hospital guidelines to answer this question.\n\n## Please Check\n• PDF documents are uploaded to the system\n• The question relates to hospital procedures or guidelines\n• System has finished processing documents"

/-- The fixed answer produced when the generation model invocation throws. -/
def generationErrorAnswer : String :=
  "## System Error\n\nI apologize, but I encountered an error while processing your question.\n\n## Please Try\n• Asking the question again\n• Using different wording\n• Checking if the system is properly initialized"

/-- Model of `[...new Set(xs)]`: deduplicate keeping the first occurrence,
preserving order; `seen` accumulates the values already emitted. -/
def dedupFirstAux (seen : List Int) : List Int → List Int
  | [] => []
  | a :: rest =>
    if a ∈ seen then dedupFirstAux seen rest
    else a :: dedupFirstAux (a :: seen) rest

/-- Model of `[...new Set(xs)]` on the page-number list. -/
def dedupFirst (l : List Int) : List Int := dedupFirstAux [] l

/-- Page numbers of a search-result list:
`map(pageNumber).filter(p => p && p > 0)`, then `[...new Set(...)]`, then
`.sort((a, b) => a - b)` (ascending numeric sort). -/
def collectPageNumbers (results : List SearchResult) : List Int :=
  let filtered :=
    (results.map (fun r => r.pageNumber)).filter
      (fun p => decide (p ≠ 0) && decide (0 < p))
  (dedupFirst filtered).insertionSort (· ≤ ·)

/-- Result record of one `getAnswer` request: the response fields, the
ledger after the request, and whether the retrieval step and the generation
model were invoked during the request. -/
structure PipelineResult where
  messageId : String
  answer : String
  pageNumbers : List Int
  consistent : Bool
  ledger : List Turn
  retrievalAttempted : Bool
  llmInvoked : Bool
deriving DecidableEq

/-- Model of `getAnswer(question, sessionId)`.  `messageId` stands for the
generated uuid and `now` for the insertion timestamp; `ledger` is the
`Chat` collection in insertion order; `store = some results` means the
vector store exists and its `similaritySearch` returned `results`, while
`store = none` covers a missing vector store (a failed search likewise
leaves the context empty); `gen = some a` means the generation model
invocation succeeded and post-processing produced the final text `a`,
`gen = none` means it threw. -/
def getAnswer (question sessionId messageId : String) (now : Nat)
    (ledger : List Turn) (store : Option (List SearchResult))
    (gen : Option String) : PipelineResult :=
  match ledger.find? (fun t => t.question == normalizeQuestion question && t.success) with
  | some exactMatch =>
    let newChat : Turn :=
      { sessionId := sessionId, messageId := messageId, question := jsTrim question,
        answer := exactMatch.answer, pageNumbers := exactMatch.pageNumbers,
        success := true, timestamp := now }
    { messageId := messageId, answer := exactMatch.answer,
      pageNumbers := exactMatch.pageNumbers, consistent := true,
      ledger := ledger ++ [newChat], retrievalAttempted := false, llmInvoked := false }
  | none =>
    let results := store.getD []
    let context := String.intercalate "\n\n" (results.map (fun r => r.pageContent))
    let pageNumbers := collectPageNumbers results
    if context = "" then
      let chat : Turn :=
        { sessionId := sessionId, messageId := messageId,
          question := normalizeQuestion question, answer := unavailableAnswer,
          pageNumbers := pageNumbers, success := false, timestamp := now }
      { messageId := messageId, answer := unavailableAnswer, pageNumbers := pageNumbers,
        consistent := false, ledger := ledger ++ [chat],
        retrievalAttempted := store.isSome, llmInvoked := false }
    else
      match gen with
      | some generated =>
        let chat : Turn :=
          { sessionId := sessionId, messageId := messageId,
            question := normalizeQuestion question, answer := generated,
            pageNumbers := pageNumbers, success := !isErrorResponse generated,
            timestamp := now }
        { messageId := messageId, answer := generated, pageNumbers := pageNumbers,
          consistent := false, ledger := ledger ++ [chat],
          retrievalAttempted := store.isSome, llmInvoked := true }
      | none =>
        let chat : Turn :=
          { sessionId := sessionId, messageId := messageId,
            question := normalizeQuestion question, answer := generationErrorAnswer,
            pageNumbers := pageNumbers, success := false, timestamp := now }
        { messageId := messageId, answer := generationErrorAnswer, pageNumbers := pageNumbers,
          consistent := false, ledger := ledger ++ [chat],
          retrievalAttempted := store.isSome, llmInvoked := true }

/-- Conversation-history selection of the cache-miss path:
`Chat.find({sessionId, success: true}).sort({timestamp: -1}).limit(3)`
followed by `.reverse()`. -/
def buildHistory (sessionId : String) (ledger : List Turn) : List Turn :=
  ((((ledger.filter (fun t => t.sessionId == sessionId && t.success)).insertionSort
      (fun a b => b.timestamp ≤ a.timestamp)).take 3)).reverse

/-- Formatted history text: one `Q:`/`A:` pair per selected turn, joined by
blank lines. -/
def historyText (sessionId : String) (ledger : List Turn) : String :=
  String.intercalate "\n\n"
    ((buildHistory sessionId ledger).map
      (fun chat => "Q: " ++ chat.question ++ "\nA: " ++ chat.answer))

/-- Model of one `ProcessedPDF` document: filename, fileSize, chunksCount. -/
structure IngestionRecord where
  filename : String
  fileSize : Nat
  chunksCount : Nat
deriving DecidableEq

/-- Ingestion-side state: the `ProcessedPDF` collection in insertion order,
and how many times the vector-store upsert (the Indexer) has run. -/
structure IngestState where
  records : List IngestionRecord
  indexerCalls : Nat
deriving DecidableEq

/-- The `ProcessedPDF.save()` step: succeeds and appends the record when
`saveOk`, otherwise raises a persistence error. -/
def saveRecord (records : List IngestionRecord) (rec : IngestionRecord)
    (saveOk : Bool) : Except String (List IngestionRecord) :=
  if saveOk then Except.ok (records ++ [rec]) else Except.error "persistence failure"

/-- Model of `processIfNew(filename, pdfDir)` for one document of size
`fileSize` split into `chunksCount` chunks.  A record matching the exact
`(filename, fileSize)` pair skips processing; otherwise the chunks are
indexed and the record save is attempted inside a try/catch whose catch
swallows the failure and continues.  The `Except` result makes exception
propagation to the caller observable. -/
def processIfNew (st : IngestState) (filename : String) (fileSize : Nat)
    (chunksCount : Nat) (saveOk : Bool) : Except String IngestState :=
  match st.records.find? (fun r => r.filename == filename && r.fileSize == fileSize) with
  | some _ => Except.ok st
  | none =>
    let indexed : IngestState := { st with indexerCalls := st.indexerCalls + 1 }
    match saveRecord indexed.records ⟨filename, fileSize, chunksCount⟩ saveOk with
    | Except.ok recs => Except.ok { indexed with records := recs }
    | Except.error _ => Except.ok indexed

/-- Raw page estimate of the chunk at ordinal `chunkIndex`:
`Math.floor((index * 1000) / (text.length / numpages)) + 1`, in exact
rational arithmetic. -/
def estimatedPageRaw (chunkIndex totalTextLength numPages : ℕ) : ℤ :=
  ⌊((chunkIndex : ℚ) * 1000) / ((totalTextLength : ℚ) / (numPages : ℚ))⌋ + 1

/-- Page number stored in chunk metadata:
`Math.min(estimatedPage, pdfData.numpages)`. -/
def pageNumberMeta (chunkIndex totalTextLength numPages : ℕ) : ℤ :=
  min (estimatedPageRaw chunkIndex totalTextLength numPages) (numPages : ℤ)

lemma mem_dedupFirstAux (seen l : List Int) (x : Int) :
    x ∈ dedupFirstAux seen l ↔ x ∈ l ∧ x ∉ seen := by
  induction l generalizing seen with
  | nil => simp [dedupFirstAux]
  | cons a rest ih =>
    by_cases ha : a ∈ seen
    · simp only [dedupFirstAux, if_pos ha, ih, List.mem_cons]
      constructor
      · rintro ⟨hx, hs⟩; exact ⟨Or.inr hx, hs⟩
      · rintro ⟨hx | hx, hs⟩
        · exact absurd (hx ▸ ha) hs
        · exact ⟨hx, hs⟩
    · simp only [dedupFirstAux, if_neg ha, List.mem_cons, ih, not_or]
      constructor
      · rintro (rfl | ⟨hx, _, hs⟩)
        · exact ⟨Or.inl rfl, ha⟩
        · exact ⟨Or.inr hx, hs⟩
      · rintro ⟨rfl | hx, hs⟩
        · exact Or.inl rfl
        · by_cases hxa : x = a
          · exact Or.inl hxa
          · exact Or.inr ⟨hx, hxa, hs⟩

lemma nodup_dedupFirstAux (seen l : List Int) : (dedupFirstAux seen l).Nodup := by
  induction l generalizing seen with
  | nil => simp [dedupFirstAux]
  | cons a rest ih =>
    by_cases ha : a ∈ seen
    · simpa [dedupFirstAux, if_pos ha] using ih seen
    · simp only [dedupFirstAux, if_neg ha]
      refine List.nodup_cons.mpr ⟨?_, ih (a :: seen)⟩
      intro hmem
      exact ((mem_dedupFirstAux _ _ _).mp hmem).2 (List.mem_cons_self a seen)

lemma mem_dedupFirst (l : List Int) (x : Int) : x ∈ dedupFirst l ↔ x ∈ l := by
  simp [dedupFirst, mem_dedupFirstAux]

lemma nodup_dedupFirst (l : List Int) : (dedupFirst l).Nodup :=
  nodup_dedupFirstAux [] l

/-- C3: the `pageNumbers` list produced from retrieval results is sorted
strictly ascending (hence duplicate-free), and its members are exactly the
positive `pageNumber` values of the returned passages. -/
theorem collectPageNumbers_sorted_nodup_pos (results : List SearchResult) :
    List.Sorted (· < ·) (collectPageNumbers results) ∧
    ∀ p : Int, p ∈ collectPageNumbers results ↔
      (0 < p ∧ ∃ r ∈ results, r.pageNumber = p) := by
  constructor
  · apply List.Sorted.lt_of_le
    · exact List.sorted_insertionSort _ _
    · exact (List.perm_insertionSort _ _).nodup_iff.mpr (nodup_dedupFirst _)
  · intro p
    simp only [collectPageNumbers, List.mem_insertionSort, mem_dedupFirst,
      List.mem_filter, List.mem_map, Bool.and_eq_true, decide_eq_true_eq]
    constructor
    · rintro ⟨⟨r, hr, rfl⟩, _, hpos⟩
      exact ⟨hpos, r, hr, rfl⟩
    · rintro ⟨hpos, r, hr, rfl⟩
      exact ⟨⟨r, hr, rfl⟩, ne_of_gt hpos, hpos⟩

/-- C3 witness: a concrete retrieval-result list, with duplicate, zero and
negative page numbers, yields a strictly ascending positive list. -/
theorem collectPageNumbers_sorted_nodup_pos_witness :
    List.Sorted (· < ·) (collectPageNumbers [⟨"a", 3⟩, ⟨"b", 1⟩, ⟨"c", 3⟩, ⟨"d", 0⟩, ⟨"e", -2⟩]) ∧
    (3 ∈ collectPageNumbers [⟨"a", 3⟩, ⟨"b", 1⟩, ⟨"c", 3⟩, ⟨"d", 0⟩, ⟨"e", -2⟩] ↔
      (0 < (3 : Int) ∧ ∃ r ∈ [SearchResult.mk "a" 3, ⟨"b", 1⟩, ⟨"c", 3⟩, ⟨"d", 0⟩, ⟨"e", -2⟩],
        r.pageNumber = 3)) :=
  ⟨(collectPageNumbers_sorted_nodup_pos _).1,
   (collectPageNumbers_sorted_nodup_pos _).2 3⟩

/-- C4: for a document with non-empty text and at least one page, the page
number attributed to the chunk at any ordinal index is
`floor(index * 1000 / (textLength / numPages)) + 1` clamped by the page
count, and it always lies within `[1, numPages]`. -/
theorem pageNumberMeta_in_range (chunkIndex totalTextLength numPages : ℕ)
    (hlen : 0 < totalTextLength) (hpages : 0 < numPages) :
    pageNumberMeta chunkIndex totalTextLength numPages
        = min (estimatedPageRaw chunkIndex totalTextLength numPages) (numPages : ℤ) ∧
    1 ≤ pageNumberMeta chunkIndex totalTextLength numPages ∧
    pageNumberMeta chunkIndex totalTextLength numPages ≤ (numPages : ℤ) := by
  refine ⟨rfl, ?_, min_le_right _ _⟩
  apply le_min
  · have hfloor : (0 : ℤ) ≤ ⌊((chunkIndex : ℚ) * 1000) / ((totalTextLength : ℚ) / (numPages : ℚ))⌋ := by
      apply Int.floor_nonneg.mpr
      apply div_nonneg
      · positivity
      · positivity
    have : (1 : ℤ) ≤ ⌊((chunkIndex : ℚ) * 1000) / ((totalTextLength : ℚ) / (numPages : ℚ))⌋ + 1 := by
      omega
    exact this
  · exact_mod_cast hpages

/-- C4 witness: a concrete chunk (ordinal index 0, 5000 characters, 2 pages)
has its attributed page inside `[1, 2]`. -/
theorem pageNumberMeta_in_range_witness :
    1 ≤ pageNumberMeta 0 5000 2 ∧ pageNumberMeta 0 5000 2 ≤ (2 : ℤ) :=
  ⟨(pageNumberMeta_in_range 0 5000 2 (by decide) (by decide)).2.1,
   (pageNumberMeta_in_range 0 5000 2 (by decide) (by decide)).2.2⟩

/-- C1: when a prior successful Turn with the same normalized question is
stored, the response carries the answer text and page
numbers of that stored Turn verbatim, and neither the retrieval step nor the generation model
is invoked for the request. -/
theorem cacheHit_verbatim (question sessionId messageId : String) (now : Nat)
    (ledger : List Turn) (store : Option (List SearchResult)) (gen : Option String)
    (h : ∃ u ∈ ledger, u.question = normalizeQuestion question ∧ u.success = true) :
    ∃ t ∈ ledger, t.question = normalizeQuestion question ∧ t.success = true ∧
      (getAnswer question sessionId messageId now ledger store gen).answer = t.answer ∧
      (getAnswer question sessionId messageId now ledger store gen).pageNumbers = t.pageNumbers ∧
      (getAnswer question sessionId messageId now ledger store gen).retrievalAttempted = false ∧
      (getAnswer question sessionId messageId now ledger store gen).llmInvoked = false := by
  have hsome : (ledger.find?
      (fun t => t.question == normalizeQuestion question && t.success)).isSome := by
    rw [List.find?_isSome]
    obtain ⟨u, hu, hq, hs⟩ := h
    exact ⟨u, hu, by simp [hq, hs]⟩
  obtain ⟨t, hfind⟩ := Option.isSome_iff_exists.mp hsome
  have hpred := List.find?_some hfind
  simp only [Bool.and_eq_true, beq_iff_eq] at hpred
  refine ⟨t, List.mem_of_find?_eq_some hfind, hpred.1, hpred.2, ?_, ?_, ?_, ?_⟩ <;>
    simp [getAnswer, hfind]

/-- C1 witness: a request whose trimmed, lowercased question matches a
stored successful Turn is answered verbatim from it with no retrieval and
no generation. -/
theorem cacheHit_verbatim_witness :
    ∃ t ∈ [(⟨"s", "m0", "hi", "Stored answer", [2, 4], true, 0⟩ : Turn)],
      t.question = normalizeQuestion " Hi " ∧ t.success = true ∧
      (getAnswer " Hi " "s" "m1" 5 [⟨"s", "m0", "hi", "Stored answer", [2, 4], true, 0⟩]
          none none).answer = t.answer ∧
      (getAnswer " Hi " "s" "m1" 5 [⟨"s", "m0", "hi", "Stored answer", [2, 4], true, 0⟩]
          none none).pageNumbers = t.pageNumbers ∧
      (getAnswer " Hi " "s" "m1" 5 [⟨"s", "m0", "hi", "Stored answer", [2, 4], true, 0⟩]
          none none).retrievalAttempted = false ∧
      (getAnswer " Hi " "s" "m1" 5 [⟨"s", "m0", "hi", "Stored answer", [2, 4], true, 0⟩]
          none none).llmInvoked = false :=
  cacheHit_verbatim " Hi " "s" "m1" 5 _ none none
    ⟨⟨"s", "m0", "hi", "Stored answer", [2, 4], true, 0⟩, by decide, by decide, rfl⟩

/-- C7 counterexample: on a cache hit the Conversation Ledger is NOT left
unchanged — the request appends a new Turn copied from the cached one. -/
theorem cacheHit_ledger_changed_cex :
    (getAnswer "hi" "s" "m1" 5 [⟨"s", "m0", "hi", "Stored answer", [2], true, 0⟩]
        none none).ledger
      = [⟨"s", "m0", "hi", "Stored answer", [2], true, 0⟩,
         ⟨"s", "m1", "hi", "Stored answer", [2], true, 5⟩] ∧
    (getAnswer "hi" "s" "m1" 5 [⟨"s", "m0", "hi", "Stored answer", [2], true, 0⟩]
        none none).ledger
      ≠ [⟨"s", "m0", "hi", "Stored answer", [2], true, 0⟩] := by
  constructor <;> decide

/-- C7 amended: on a cache hit the request persists exactly one new Turn to
the Conversation Ledger before responding: it copies the answer and page
numbers of the cached Turn, stores the question trimmed with original case,
and is marked successful. -/
theorem cacheHit_appends_turn (question sessionId messageId : String) (now : Nat)
    (ledger : List Turn) (store : Option (List SearchResult)) (gen : Option String)
    (t : Turn)
    (h : ledger.find? (fun u => u.question == normalizeQuestion question && u.success)
        = some t) :
    (getAnswer question sessionId messageId now ledger store gen).ledger
      = ledger ++ [⟨sessionId, messageId, jsTrim question, t.answer, t.pageNumbers,
                    true, now⟩] := by
  simp [getAnswer, h]

/-- C7 amended witness: the concrete cache hit above appends exactly the
copied Turn. -/
theorem cacheHit_appends_turn_witness :
    (getAnswer "hi" "s" "m1" 5 [⟨"s", "m0", "hi", "Stored answer", [2], true, 0⟩]
        none none).ledger
      = [⟨"s", "m0", "hi", "Stored answer", [2], true, 0⟩]
        ++ [⟨"s", "m1", jsTrim "hi", "Stored answer", [2], true, 5⟩] :=
  cacheHit_appends_turn "hi" "s" "m1" 5 _ none none
    ⟨"s", "m0", "hi", "Stored answer", [2], true, 0⟩ (by decide)

/-- C10: the stored question is not uniformly normalized — a Turn persisted
on the cache-hit path stores the question trimmed with original case
preserved, while a Turn persisted on the cache-miss path stores it trimmed
and lowercased. -/
theorem persisted_question_case (question sessionId messageId : String) (now : Nat)
    (ledger : List Turn) (store : Option (List SearchResult)) (gen : Option String) :
    (∀ t, ledger.find? (fun u => u.question == normalizeQuestion question && u.success)
        = some t →
      ∃ newTurn, (getAnswer question sessionId messageId now ledger store gen).ledger
          = ledger ++ [newTurn] ∧
        newTurn.question = jsTrim question ∧ newTurn.success = true) ∧
    (ledger.find? (fun u => u.question == normalizeQuestion question && u.success)
        = none →
      ∃ newTurn, (getAnswer question sessionId messageId now ledger store gen).ledger
          = ledger ++ [newTurn] ∧
        newTurn.question = jsToLower (jsTrim question)) := by
  constructor
  · intro t ht
    exact ⟨⟨sessionId, messageId, jsTrim question, t.answer, t.pageNumbers, true, now⟩,
      by simp [getAnswer, ht], rfl, rfl⟩
  · intro hnone
    by_cases hc :
        String.intercalate "\n\n" ((store.getD []).map (fun r => r.pageContent)) = ""
    · exact ⟨⟨sessionId, messageId, normalizeQuestion question, unavailableAnswer,
        collectPageNumbers (store.getD []), false, now⟩,
        by simp [getAnswer, hnone, hc], rfl⟩
    · cases gen with
      | some generated =>
        exact ⟨⟨sessionId, messageId, normalizeQuestion question, generated,
          collectPageNumbers (store.getD []), !isErrorResponse generated, now⟩,
          by simp [getAnswer, hnone, hc], rfl⟩
      | none =>
        exact ⟨⟨sessionId, messageId, normalizeQuestion question, generationErrorAnswer,
          collectPageNumbers (store.getD []), false, now⟩,
          by simp [getAnswer, hnone, hc], rfl⟩

/-- C10 witness: a mixed-case question " Hi " hits the cache and is stored
as "Hi" (trimmed, case preserved), while the same question on a miss (empty
ledger) is stored as "hi" (trimmed and lowercased). -/
theorem persisted_question_case_witness :
    (∃ newTurn,
      (getAnswer " Hi " "s" "m1" 5 [⟨"s", "m0", "hi", "Stored answer", [2], true, 0⟩]
          none none).ledger
        = [⟨"s", "m0", "hi", "Stored answer", [2], true, 0⟩] ++ [newTurn] ∧
      newTurn.question = jsTrim " Hi " ∧ newTurn.success = true) ∧
    (∃ newTurn,
      (getAnswer " Hi " "s" "m2" 6 [] none none).ledger = [] ++ [newTurn] ∧
      newTurn.question = jsToLower (jsTrim " Hi ")) :=
  ⟨(persisted_question_case " Hi " "s" "m1" 5 _ none none).1
      ⟨"s", "m0", "hi", "Stored answer", [2], true, 0⟩ (by decide),
   (persisted_question_case " Hi " "s" "m2" 6 [] none none).2 (by decide)⟩

/-- C2: on the cache-miss path, when the retrieved context is empty the
generation model is never invoked, the answer is the fixed "Information Not
Available" response, and the persisted Turn carries `success = false`. -/
theorem emptyContext_shortCircuit (question sessionId messageId : String) (now : Nat)
    (ledger : List Turn) (store : Option (List SearchResult)) (gen : Option String)
    (hmiss : ledger.find? (fun t => t.question == normalizeQuestion question && t.success)
        = none)
    (hempty : String.intercalate "\n\n" ((store.getD []).map (fun r => r.pageContent)) = "") :
    (getAnswer question sessionId messageId now ledger store gen).answer
        = unavailableAnswer ∧
    (getAnswer question sessionId messageId now ledger store gen).llmInvoked = false ∧
    (getAnswer question sessionId messageId now ledger store gen).ledger
      = ledger ++ [⟨sessionId, messageId, normalizeQuestion question, unavailableAnswer,
                    collectPageNumbers (store.getD []), false, now⟩] := by
  refine ⟨?_, ?_, ?_⟩ <;> simp [getAnswer, hmiss, hempty]

/-- C2 witness: a question against an empty ledger with no retrievable
context gets the fixed unavailable answer, no generation, and a
`success = false` Turn. -/
theorem emptyContext_shortCircuit_witness :
    (getAnswer "what is jci?" "s" "m1" 5 [] none none).answer = unavailableAnswer ∧
    (getAnswer "what is jci?" "s" "m1" 5 [] none none).llmInvoked = false ∧
    (getAnswer "what is jci?" "s" "m1" 5 [] none none).ledger
      = [] ++ [⟨"s", "m1", normalizeQuestion "what is jci?", unavailableAnswer,
                collectPageNumbers ((none : Option (List SearchResult)).getD []),
                false, 5⟩] :=
  emptyContext_shortCircuit "what is jci?" "s" "m1" 5 [] none none (by decide) (by decide)

/-- C9: every non-cached request persists exactly one Turn; whenever its
answer text case-insensitively contains one of the fixed failure-signature
phrases, that Turn carries `success = false`; and on the generated path the
persisted success flag is exactly the classifier verdict on the persisted
answer text, i.e. classification runs before persistence. -/
theorem classifier_gates_persistence (question sessionId messageId : String) (now : Nat)
    (ledger : List Turn) (store : Option (List SearchResult)) (gen : Option String)
    (hmiss : ledger.find? (fun t => t.question == normalizeQuestion question && t.success)
        = none) :
    ∃ newTurn,
      (getAnswer question sessionId messageId now ledger store gen).ledger
          = ledger ++ [newTurn] ∧
      (isErrorResponse newTurn.answer = true → newTurn.success = false) ∧
      (∀ a, gen = some a →
        String.intercalate "\n\n" ((store.getD []).map (fun r => r.pageContent)) ≠ "" →
        newTurn.answer = a ∧ newTurn.success = !isErrorResponse a) := by
  by_cases hc :
      String.intercalate "\n\n" ((store.getD []).map (fun r => r.pageContent)) = ""
  · refine ⟨⟨sessionId, messageId, normalizeQuestion question, unavailableAnswer,
      collectPageNumbers (store.getD []), false, now⟩,
      by simp [getAnswer, hmiss, hc], fun _ => rfl, fun a _ hne => absurd hc hne⟩
  · cases gen with
    | some generated =>
      refine ⟨⟨sessionId, messageId, normalizeQuestion question, generated,
        collectPageNumbers (store.getD []), !isErrorResponse generated, now⟩,
        by simp [getAnswer, hmiss, hc], ?_, ?_⟩
      · intro h
        simp [h]
      · intro a ha _
        injection ha with ha
        subst ha
        exact ⟨rfl, rfl⟩
    | none =>
      refine ⟨⟨sessionId, messageId, normalizeQuestion question, generationErrorAnswer,
        collectPageNumbers (store.getD []), false, now⟩,
        by simp [getAnswer, hmiss, hc], fun _ => rfl, fun a ha => by simp at ha⟩

/-- C9 witness: a generated answer containing the "## Error" failure
signature is persisted with `success = false` equal to the classifier
verdict. -/
theorem classifier_gates_persistence_witness :
    ∃ newTurn,
      (getAnswer "q1" "s" "m1" 5 [] (some [⟨"relevant passage", 3⟩])
          (some "## Error\n\nboom")).ledger = [] ++ [newTurn] ∧
      (isErrorResponse newTurn.answer = true → newTurn.success = false) ∧
      (∀ a, (some "## Error\n\nboom" : Option String) = some a →
        String.intercalate "\n\n"
          (((some [⟨"relevant passage", 3⟩] : Option (List SearchResult)).getD []).map
            (fun r => r.pageContent)) ≠ "" →
        newTurn.answer = a ∧ newTurn.success = !isErrorResponse a) :=
  classifier_gates_persistence "q1" "s" "m1" 5 [] (some [⟨"relevant passage", 3⟩])
    (some "## Error\n\nboom") (by decide)

/-- C8: the conversational history for a session consists of at most 3
Turns, every one of them successful and belonging to the session, ordered
oldest-to-newest; and they are the most recent such Turns — any successful
Turn of the session left out is no newer than every included one. -/
theorem history_recent_successful (sessionId : String) (ledger : List Turn) :
    (buildHistory sessionId ledger).length ≤ 3 ∧
    (∀ t ∈ buildHistory sessionId ledger, t.success = true ∧ t.sessionId = sessionId) ∧
    List.Sorted (fun a b : Turn => a.timestamp ≤ b.timestamp)
      (buildHistory sessionId ledger) ∧
    (∀ s ∈ ledger.filter (fun t => t.sessionId == sessionId && t.success),
      s ∈ buildHistory sessionId ledger ∨
        ∀ t ∈ buildHistory sessionId ledger, s.timestamp ≤ t.timestamp) := by
  haveI : IsTotal Turn (fun a b => b.timestamp ≤ a.timestamp) :=
    ⟨fun a b => le_total b.timestamp a.timestamp⟩
  haveI : IsTrans Turn (fun a b => b.timestamp ≤ a.timestamp) :=
    ⟨fun _ _ _ hab hbc => le_trans hbc hab⟩
  have hsorted :
      List.Sorted (fun a b : Turn => b.timestamp ≤ a.timestamp)
        ((ledger.filter (fun t => t.sessionId == sessionId && t.success)).insertionSort
          (fun a b => b.timestamp ≤ a.timestamp)) :=
    List.sorted_insertionSort _ _
  refine ⟨?_, ?_, ?_, ?_⟩
  · simp only [buildHistory, List.length_reverse]
    exact List.length_take_le 3 _
  · intro t ht
    have hmem : t ∈ ledger.filter (fun t => t.sessionId == sessionId && t.success) :=
      (List.mem_insertionSort _).mp
        (List.mem_of_mem_take (List.mem_reverse.mp ht))
    have hpred := List.of_mem_filter hmem
    simp only [Bool.and_eq_true, beq_iff_eq] at hpred
    exact ⟨hpred.2, hpred.1⟩
  · rw [buildHistory, List.Sorted, List.pairwise_reverse]
    exact List.Pairwise.sublist (List.take_sublist 3 _) hsorted
  · intro s hs
    have hsSorted :
        s ∈ (ledger.filter (fun t => t.sessionId == sessionId && t.success)).insertionSort
          (fun a b => b.timestamp ≤ a.timestamp) :=
      (List.mem_insertionSort _).mpr hs
    rw [← List.take_append_drop 3
      ((ledger.filter (fun t => t.sessionId == sessionId && t.success)).insertionSort
        (fun a b => b.timestamp ≤ a.timestamp)), List.mem_append] at hsSorted
    rcases hsSorted with htake | hdrop
    · exact Or.inl (List.mem_reverse.mpr htake)
    · refine Or.inr fun t ht => ?_
      exact hsorted.rel_of_mem_take_of_mem_drop (List.mem_reverse.mp ht) hdrop

/-- C8 witness: for a concrete five-turn ledger mixing sessions, failures
and timestamps, the history keeps at most 3 turns, only successful ones of
the session, oldest-to-newest, and any excluded successful session turn is
no newer than the included ones. -/
theorem history_recent_successful_witness :
    (buildHistory "s" [⟨"s", "m1", "q1", "a1", [], true, 1⟩,
        ⟨"s", "m2", "q2", "a2", [], false, 2⟩, ⟨"t", "m3", "q3", "a3", [], true, 3⟩,
        ⟨"s", "m4", "q4", "a4", [], true, 4⟩, ⟨"s", "m5", "q5", "a5", [], true, 5⟩,
        ⟨"s", "m6", "q6", "a6", [], true, 6⟩]).length ≤ 3 ∧
    (∀ t ∈ buildHistory "s" [⟨"s", "m1", "q1", "a1", [], true, 1⟩,
        ⟨"s", "m2", "q2", "a2", [], false, 2⟩, ⟨"t", "m3", "q3", "a3", [], true, 3⟩,
        ⟨"s", "m4", "q4", "a4", [], true, 4⟩, ⟨"s", "m5", "q5", "a5", [], true, 5⟩,
        ⟨"s", "m6", "q6", "a6", [], true, 6⟩],
      t.success = true ∧ t.sessionId = "s") :=
  ⟨(history_recent_successful "s" _).1, (history_recent_successful "s" _).2.1⟩

/-- C5: ingesting a document whose `(filename, fileSize)` pair has no
IngestionRecord processes it once — afterwards exactly one matching record
exists and the Indexer ran exactly once more — and ingesting the same pair
again is skipped, leaving the state unchanged. -/
theorem ingest_twice_once (st : IngestState) (filename : String)
    (fileSize chunksCount chunksCount2 : Nat)
    (hnew : st.records.find? (fun r => r.filename == filename && r.fileSize == fileSize)
        = none) :
    ∃ st1, processIfNew st filename fileSize chunksCount true = Except.ok st1 ∧
      processIfNew st1 filename fileSize chunksCount2 true = Except.ok st1 ∧
      (st1.records.filter
        (fun r => r.filename == filename && r.fileSize == fileSize)).length = 1 ∧
      st1.indexerCalls = st.indexerCalls + 1 := by
  refine ⟨{ records := st.records ++ [⟨filename, fileSize, chunksCount⟩],
            indexerCalls := st.indexerCalls + 1 }, ?_, ?_, ?_, ?_⟩
  · simp [processIfNew, hnew, saveRecord]
  · have hfind :
        (st.records ++ [(⟨filename, fileSize, chunksCount⟩ : IngestionRecord)]).find?
          (fun r => r.filename == filename && r.fileSize == fileSize)
          = some ⟨filename, fileSize, chunksCount⟩ := by
      rw [List.find?_append, hnew]
      simp
    simp [processIfNew, hfind]
  · have hfilter :
        st.records.filter (fun r => r.filename == filename && r.fileSize == fileSize)
          = [] := by
      rw [List.filter_eq_nil_iff]
      intro a ha
      exact List.find?_eq_none.mp hnew a ha
    simp [hfilter]
  · rfl

/-- C5 witness: a fresh state ingests "policy.pdf" once; the second attempt
is skipped, leaving one record and one Indexer invocation. -/
theorem ingest_twice_once_witness :
    ∃ st1, processIfNew ⟨[], 0⟩ "policy.pdf" 10240 7 true = Except.ok st1 ∧
      processIfNew st1 "policy.pdf" 10240 7 true = Except.ok st1 ∧
      (st1.records.filter
        (fun r => r.filename == "policy.pdf" && r.fileSize == 10240)).length = 1 ∧
      st1.indexerCalls = (⟨[], 0⟩ : IngestState).indexerCalls + 1 :=
  ingest_twice_once ⟨[], 0⟩ "policy.pdf" 10240 7 7 (by decide)

/-- C6 counterexample: when the IngestionRecord save fails, `processIfNew`
returns normally — the failure does NOT propagate to the caller; no record
is saved and the indexing already performed stands. -/
theorem record_save_failure_swallowed_cex :
    processIfNew ⟨[], 0⟩ "a.pdf" 10 3 false = Except.ok ⟨[], 1⟩ ∧
    ¬ ∃ e, processIfNew ⟨[], 0⟩ "a.pdf" 10 3 false = Except.error e := by
  have hok : processIfNew (⟨[], 0⟩ : IngestState) "a.pdf" 10 3 false
      = Except.ok (⟨[], 1⟩ : IngestState) := rfl
  refine ⟨hok, ?_⟩
  rintro ⟨e, he⟩
  exact Except.noConfusion (hok.symm.trans he)

/-- C6 amended: if persisting the IngestionRecord fails, the failure is
swallowed (the catch continues): `processIfNew` completes normally with the
Indexer invocation counted but no record saved, so the document is not
marked as already processed and will be reprocessed on the next run. -/
theorem record_save_failure_swallowed (st : IngestState) (filename : String)
    (fileSize chunksCount : Nat)
    (hnew : st.records.find? (fun r => r.filename == filename && r.fileSize == fileSize)
        = none) :
    processIfNew st filename fileSize chunksCount false
      = Except.ok ⟨st.records, st.indexerCalls + 1⟩ := by
  simp [processIfNew, hnew, saveRecord]

/-- C6 amended witness: the concrete failed save above returns normally
with no record persisted. -/
theorem record_save_failure_swallowed_witness :
    processIfNew ⟨[⟨"other.pdf", 5, 1⟩], 2⟩ "a.pdf" 10 3 false
      = Except.ok ⟨[⟨"other.pdf", 5, 1⟩], 3⟩ :=
  record_save_failure_swallowed ⟨[⟨"other.pdf", 5, 1⟩], 2⟩ "a.pdf" 10 3 (by decide)

end RagService
